import Mathlib

/-!
Verification of the lead-management CRM core (`dashboards/views.py`,
`crm_leads/models.py`): the lead lifecycle state machine, the
activity/note ledger, assignment, CSV import and the activity listing.

The Django store is embedded as an explicit `Store` value threaded
through each view function; `timezone.now()` / `auto_now_add` are
modelled by a logical clock `Store.now` that advances on every row
creation, and each Django view becomes a pure function
`Store → inputs → ViewResp × Store`.
-/

namespace CRM

/-- An authenticated principal (Django `User`): id, display name,
staff/superuser flags, and group memberships. -/
structure User where
  id : Nat
  name : String
  is_staff : Bool
  is_superuser : Bool
  groups : List String
deriving Repr, DecidableEq

/-- `crm_leads.models.Lead`: statuses and timestamps as in the model;
`assigned_to` is the FK as a user id. -/
structure Lead where
  id : Nat
  full_name : String
  email : Option String
  phone : String
  source : String
  status : String
  assigned_to : Option Nat
  assigned_at : Option Nat
  contacted_at : Option Nat
  awaiting_at : Option Nat
  closed_at : Option Nat
  created_at : Nat
deriving Repr, DecidableEq

/-- `crm_leads.models.LeadActivity`. -/
structure LeadActivity where
  id : Nat
  lead : Nat
  user : Option Nat
  activity_type : String
  message : String
  created_at : Nat
deriving Repr, DecidableEq

/-- `crm_leads.models.Note`. -/
structure Note where
  lead : Nat
  user : Nat
  content : String
  created_at : Nat
deriving Repr, DecidableEq

/-- The shared store: lead table, activity ledger, notes, users, a
logical clock and pk counters. -/
structure Store where
  leads : List Lead
  activities : List LeadActivity
  notes : List Note
  users : List User
  now : Nat
  next_activity_id : Nat
  next_lead_id : Nat
deriving Repr, DecidableEq

/-- What a view returns: a JSON success, a JSON error with an HTTP
status, a redirect, or a propagated `Http404` page. -/
inductive ViewResp where
  | jsonOk (status : Nat) (message : String)
  | jsonErr (status : Nat) (error : String)
  | redirect (target : String)
  | notFoundPage
deriving Repr, DecidableEq

/-- `Lead.STATUS_CHOICES` keys. -/
def STATUS_CHOICES : List String :=
  ["new", "assigned", "contacted", "awaiting", "closed", "lost"]

/-- `LeadActivity.ACTIVITY_TYPES` keys. -/
def ACTIVITY_TYPES : List String :=
  ["call", "whatsapp", "email", "note", "status"]

/-- `views.is_admin`: `user.is_staff or user.is_superuser`. -/
def is_admin (u : User) : Bool := u.is_staff || u.is_superuser

/-- `views.is_sales_agent`: member of `sales_agent` group or superuser. -/
def is_sales_agent (u : User) : Bool :=
  u.groups.contains "sales_agent" || u.is_superuser

/-- Python truthiness of an optional string (`None` and `""` are falsy). -/
def truthyStr : Option String → Option String
  | some s => if s = "" then none else some s
  | none => none

/-- Python truthiness of an optional integer (`None` and `0` are falsy). -/
def truthyNat : Option Nat → Option Nat
  | some n => if n = 0 then none else some n
  | none => none

/-- `Lead.objects.get(id=lid)` (via `get_object_or_404`). -/
def findLead (db : Store) (lid : Nat) : Option Lead :=
  db.leads.find? (fun l => l.id == lid)

/-- `User.objects.get(id=uid)` (via `get_object_or_404`). -/
def findUser (db : Store) (uid : Nat) : Option User :=
  db.users.find? (fun u => u.id == uid)

/-- `get_object_or_404(Lead, id=lid, assigned_to=owner)`: the
ownership-scoped lookup used by the agent-facing views. -/
def get_lead_or_404 (db : Store) (lid : Nat) (owner : Nat) : Option Lead :=
  db.leads.find? (fun l => l.id == lid && l.assigned_to == some owner)

/-- `lead.save()`: write the (mutated) row back by primary key. -/
def saveLead (db : Store) (l : Lead) : Store :=
  { db with leads := db.leads.map (fun x => if x.id = l.id then l else x) }

/-- `LeadActivity.objects.create(...)`: append to the ledger with
`created_at = now` (`auto_now_add`), advancing the clock. -/
def createActivity (db : Store) (lid : Nat) (uid : Nat) (ty msg : String) :
    Store × LeadActivity :=
  let a : LeadActivity :=
    { id := db.next_activity_id, lead := lid, user := some uid,
      activity_type := ty, message := msg, created_at := db.now }
  ({ db with activities := a :: db.activities,
             next_activity_id := db.next_activity_id + 1,
             now := db.now + 1 }, a)

/-- `Note.objects.create(...)`. -/
def createNote (db : Store) (lid : Nat) (uid : Nat) (content : String) : Store :=
  { db with notes := { lead := lid, user := uid, content := content,
                       created_at := db.now } :: db.notes,
            now := db.now + 1 }

/-- Display name of a user id (an FK target always exists in Django;
empty string if the id is dangling in the model). -/
def userName (db : Store) (uid : Nat) : String :=
  ((findUser db uid).map User.name).getD ""

/-- `views.mark_lead_contacted`: ownership-scoped lookup, then an
unconditional `lead.status = "contacted"` plus one status activity. -/
def mark_lead_contacted (db : Store) (actor : User) (lead_id : Nat) :
    ViewResp × Store :=
  match get_lead_or_404 db lead_id actor.id with
  | none => (.notFoundPage, db)
  | some lead =>
    let db1 := saveLead db { lead with status := "contacted" }
    let db2 := (createActivity db1 lead.id actor.id "status" "Lead was contacted").1
    (.jsonOk 200 "", db2)

/-- `views.add_lead_note`: ownership-scoped lookup; a truthy
`note_text` creates a `Note` and a `note` activity, a falsy one is
silently skipped; either way the view redirects. -/
def add_lead_note (db : Store) (actor : User) (lead_id : Nat)
    (note_text : Option String) : ViewResp × Store :=
  match get_lead_or_404 db lead_id actor.id with
  | none => (.notFoundPage, db)
  | some lead =>
    match truthyStr note_text with
    | some t =>
      let db1 := createNote db lead.id actor.id t
      let db2 := (createActivity db1 lead.id actor.id "note" t).1
      (.redirect "dashboards:sales_dashboard", db2)
    | none => (.redirect "dashboards:sales_dashboard", db)

/-- The `allowed_transitions` dict of `views.log_activity`, read with
`.get(current_stage, [])` (so `new` and unknown stages map to `[]`). -/
def allowed_transitions_get (s : String) : List String :=
  if s = "assigned" then ["contacted"]
  else if s = "contacted" then ["awaiting"]
  else if s = "awaiting" then ["closed", "lost"]
  else []

/-- The JSON body of a `log_activity` request: `data.get("lead_id")`,
`data.get("activity_type")`, `data.get("message", "")`,
`data.get("new_stage")`. -/
structure LogActivityReq where
  lead_id : Option Nat
  activity_type : Option String
  message : String
  new_stage : Option String
deriving Repr, DecidableEq

/-- `views.log_activity`.  Note two quirks kept faithfully: the type
check also lets the literal `"contacted"` through
(`activity_type not in valid_types and activity_type not in ["contacted"]`),
and the `Http404` raised by `get_object_or_404` is swallowed by the
view's own `except Exception` handler, so a missing/non-owned lead
yields a 500 JSON response, not a 404 page. -/
def log_activity (db : Store) (actor : User) (req : LogActivityReq) :
    ViewResp × Store :=
  if ¬ is_sales_agent actor then (.redirect "login", db)
  else
    match truthyNat req.lead_id, truthyStr req.activity_type with
    | some lid, some aty =>
      if ¬ (ACTIVITY_TYPES.contains aty || ["contacted"].contains aty) then
        (.jsonErr 400 "Invalid activity type. Must be one of: call, whatsapp, email, note, status", db)
      else
        match get_lead_or_404 db lid actor.id with
        | none =>
          (.jsonErr 500 "Server error: No Lead matches the given query.", db)
        | some lead =>
          match truthyStr req.new_stage with
          | some ns =>
            if ¬ STATUS_CHOICES.contains ns then
              (.jsonErr 400 "Invalid stage. Must be one of: new, assigned, contacted, awaiting, closed, lost", db)
            else if ¬ (allowed_transitions_get lead.status).contains ns then
              (.jsonErr 400 ("Cannot move from '" ++ lead.status ++ "' to '" ++ ns ++ "'"), db)
            else
              let db1 := saveLead db { lead with status := ns }
              let db2 := (createActivity db1 lead.id actor.id "status"
                ("Stage changed from " ++ lead.status ++ " to " ++ ns)).1
              let db3 := (createActivity db2 lead.id actor.id aty req.message).1
              (.jsonOk 200 "Activity logged successfully", db3)
          | none =>
            let db1 := (createActivity db lead.id actor.id aty req.message).1
            (.jsonOk 200 "Activity logged successfully", db1)
    | _, _ =>
      (.jsonErr 400 "Missing required fields: lead_id, activity_type", db)

/-- `views.assign_lead` (admin only): forces `assigned_to`, sets
`status = "assigned"` and `assigned_at = now` regardless of the prior
status, and logs a status activity whose message distinguishes a
reassignment from a first assignment.  As in `log_activity`, a raised
`Http404` is swallowed by the view's `except Exception` into a 500. -/
def assign_lead (db : Store) (actor : User) (lead_id agent_id : Option Nat) :
    ViewResp × Store :=
  if ¬ is_admin actor then (.redirect "login", db)
  else
    match truthyNat lead_id, truthyNat agent_id with
    | some lid, some aid =>
      match findLead db lid with
      | none => (.jsonErr 500 "No Lead matches the given query.", db)
      | some lead =>
        match findUser db aid with
        | none => (.jsonErr 500 "No User matches the given query.", db)
        | some agent =>
          let db1 := saveLead db { lead with assigned_to := some agent.id,
                                             status := "assigned",
                                             assigned_at := some db.now }
          let message :=
            match lead.assigned_to with
            | some oldId =>
              "Lead reassigned from " ++ userName db oldId ++ " to " ++ agent.name
            | none => "Lead assigned to " ++ agent.name
          let db2 := (createActivity db1 lead.id actor.id "status" message).1
          (.jsonOk 200 ("Lead assigned to " ++ agent.name), db2)
    | _, _ => (.jsonErr 400 "Missing lead_id or agent_id", db)

/-- Python's `str.strip()`: drop leading and trailing whitespace.
(Character-list implementation; `String.trim` itself does not reduce
in the kernel.) -/
def pyStrip (s : String) : String :=
  ⟨((s.data.dropWhile Char.isWhitespace).reverse.dropWhile
      Char.isWhitespace).reverse⟩

/-- Python's `str.lower()` on the ASCII inputs at hand. -/
def pyLower (s : String) : String := ⟨s.data.map Char.toLower⟩

/-- One parsed CSV row; `source = none` models an absent `source`
column (`row.get('source', 'manual')`). -/
structure CsvRow where
  full_name : String
  email : String
  phone : String
  source : Option String
deriving Repr, DecidableEq

/-- The `valid_sources` list of `views.import_csv`. -/
def VALID_SOURCES : List String := ["whatsapp", "website", "manual"]

/-- One iteration of the row loop of `views.import_csv`: returns the
updated store and `none` on success or the recorded error message. -/
def processCsvRow (db : Store) (row : CsvRow) : Store × Option String :=
  let full_name := pyStrip row.full_name
  let email := pyStrip row.email
  let phone := pyStrip row.phone
  let source0 := pyLower (pyStrip (row.source.getD "manual"))
  if full_name = "" ∨ phone = "" then
    (db, some "Row skipped: missing name or phone")
  else
    let source := if VALID_SOURCES.contains source0 then source0 else "manual"
    if db.leads.any (fun l => l.phone == phone) then
      (db, some ("Lead with phone " ++ phone ++ " already exists"))
    else
      let lead : Lead :=
        { id := db.next_lead_id, full_name := full_name,
          email := if email = "" then none else some email,
          phone := phone, source := source, status := "new",
          assigned_to := none, assigned_at := none, contacted_at := none,
          awaiting_at := none, closed_at := none, created_at := db.now }
      ({ db with leads := db.leads ++ [lead],
                 next_lead_id := db.next_lead_id + 1,
                 now := db.now + 1 }, none)

/-- The row loop of `views.import_csv`, accumulating
`created_count`, `error_count` and the error list. -/
def csvLoop : Store → List CsvRow → Nat → Nat → List String →
    Store × Nat × Nat × List String
  | db, [], c, e, errs => (db, c, e, errs)
  | db, r :: rs, c, e, errs =>
    match processCsvRow db r with
    | (db1, some m) => csvLoop db1 rs c (e + 1) (errs ++ [m])
    | (db1, none) => csvLoop db1 rs (c + 1) e errs

/-- The JSON result of `views.import_csv`. -/
structure CsvResult where
  created_count : Nat
  error_count : Nat
  errors : List String
deriving Repr, DecidableEq

/-- `views.import_csv` (admin only); CSV parsing itself is out of
scope, the function takes the parsed rows.  The response truncates the
error list to the first 10 messages (`errors[:10]`). -/
def csv_import (db : Store) (actor : User) (rows : List CsvRow) :
    Option CsvResult × Store :=
  if ¬ is_admin actor then (none, db)
  else
    match csvLoop db rows 0 0 [] with
    | (db1, c, e, errs) =>
      (some { created_count := c, error_count := e, errors := errs.take 10 }, db1)

/-- `views.get_lead_activities`: ownership-scoped lookup (the raised
`Http404` again becomes a 500 via `except Exception`), then the lead's
activities ordered by `-created_at`, optionally filtered by a valid
activity type. -/
def get_lead_activities (db : Store) (actor : User) (lead_id : Nat)
    (filter_type : Option String) : Except (Nat × String) (List LeadActivity) :=
  match get_lead_or_404 db lead_id actor.id with
  | none =>
    .error (500, "Failed to load activities: No Lead matches the given query.")
  | some lead =>
    let acts := (db.activities.filter (fun a => a.lead == lead.id)).mergeSort
      (fun a b => decide (b.created_at ≤ a.created_at))
    match truthyStr filter_type with
    | some ft =>
      if ACTIVITY_TYPES.contains ft then
        .ok (acts.filter (fun a => a.activity_type == ft))
      else .ok acts
    | none => .ok acts

/-! ### Helper lemmas -/

theorem find?_map_replace (leads : List Lead) (l' : Lead) :
    ((leads.map (fun x => if x.id = l'.id then l' else x)).find?
        (fun x => x.id == l'.id))
      = (leads.find? (fun x => x.id == l'.id)).map (fun _ => l') := by
  induction leads with
  | nil => rfl
  | cons h t ih =>
    by_cases hh : h.id = l'.id
    · simp [List.find?_cons, hh]
    · simp [List.find?_cons, hh, ih]

theorem findLead_saveLead (db : Store) (l' : Lead) :
    findLead (saveLead db l') l'.id = (findLead db l'.id).map (fun _ => l') :=
  find?_map_replace db.leads l'

theorem get_lead_or_404_spec {db : Store} {lid owner : Nat} {lead : Lead}
    (h : get_lead_or_404 db lid owner = some lead) :
    lead ∈ db.leads ∧ lead.id = lid ∧ lead.assigned_to = some owner := by
  have hmem := List.mem_of_find?_eq_some h
  have hp := List.find?_some h
  simp only [Bool.and_eq_true, beq_iff_eq] at hp
  exact ⟨hmem, hp.1, hp.2⟩

theorem findLead_isSome_of_owned {db : Store} {lid owner : Nat} {lead : Lead}
    (h : get_lead_or_404 db lid owner = some lead) :
    (findLead db lid).isSome := by
  obtain ⟨hmem, hid, -⟩ := get_lead_or_404_spec h
  exact List.find?_isSome.mpr ⟨lead, hmem, by simp [hid]⟩

theorem mem_allowed_mem_status {ns s : String}
    (h : ns ∈ allowed_transitions_get s) : ns ∈ STATUS_CHOICES := by
  unfold allowed_transitions_get at h
  split_ifs at h <;> simp_all [STATUS_CHOICES]

theorem contains_iff_mem_str (l : List String) (a : String) :
    l.contains a = true ↔ a ∈ l := by
  simp [List.contains]

/-! ### Concrete fixtures -/

/-- A sales agent. -/
def agentA : User :=
  { id := 1, name := "Alice A", is_staff := false, is_superuser := false,
    groups := ["sales_agent"] }

/-- Another sales agent. -/
def agentB : User :=
  { id := 2, name := "Bob B", is_staff := false, is_superuser := false,
    groups := ["sales_agent"] }

/-- A staff (admin) user who is in no agent group. -/
def adminU : User :=
  { id := 9, name := "Root R", is_staff := true, is_superuser := false,
    groups := [] }

/-- A lead with the given id, status and owner. -/
def mkLead (lid : Nat) (st : String) (owner : Option Nat) : Lead :=
  { id := lid, full_name := "L", email := none, phone := toString lid,
    source := "manual", status := st, assigned_to := owner,
    assigned_at := none, contacted_at := none, awaiting_at := none,
    closed_at := none, created_at := 0 }

/-- A store holding the given leads and the three fixture users. -/
def mkStore (ls : List Lead) : Store :=
  { leads := ls, activities := [], notes := [],
    users := [agentA, agentB, adminU],
    now := 10, next_activity_id := 1, next_lead_id := 100 }

/-! ### Claims -/

/-- C1: with a well-formed, owner-authorised `log_activity` request
carrying `new_stage = ns`, the operation succeeds iff `ns` is in the
allowed-transition set of the lead's current status (per the table
assigned→contacted, contacted→awaiting, awaiting→closed|lost,
closed/lost/new→none), and otherwise fails with a 400 error. -/
theorem C1_transition_iff
    (db : Store) (actor : User) (req : LogActivityReq)
    (lid : Nat) (aty ns : String) (lead : Lead)
    (hagent : is_sales_agent actor = true)
    (hlid : truthyNat req.lead_id = some lid)
    (haty : truthyStr req.activity_type = some aty)
    (hvalid : (ACTIVITY_TYPES.contains aty || ["contacted"].contains aty) = true)
    (hlead : get_lead_or_404 db lid actor.id = some lead)
    (hns : truthyStr req.new_stage = some ns) :
    ((log_activity db actor req).1
        = ViewResp.jsonOk 200 "Activity logged successfully"
      ↔ ns ∈ allowed_transitions_get lead.status)
    ∧ (ns ∉ allowed_transitions_get lead.status →
        ∃ msg, (log_activity db actor req).1 = ViewResp.jsonErr 400 msg) := by
  simp only [log_activity, hagent, hlid, haty, hvalid, hlead, hns,
    Bool.not_true, not_false_eq_true, if_false, ite_false, ite_true]
  by_cases hmem : ns ∈ allowed_transitions_get lead.status
  · have hst : ns ∈ STATUS_CHOICES := mem_allowed_mem_status hmem
    simp [hst, hmem]
  · by_cases hst : ns ∈ STATUS_CHOICES
    · exact ⟨by simp [hst, hmem], fun _ =>
        ⟨"Cannot move from '" ++ lead.status ++ "' to '" ++ ns ++ "'",
         by simp [hst, hmem]⟩⟩
    · exact ⟨by simp [hst, hmem], fun _ =>
        ⟨"Invalid stage. Must be one of: new, assigned, contacted, awaiting, closed, lost",
         by simp [hst]⟩⟩

/-- C1 witness: at concrete inputs, `awaiting → lost` succeeds and
`new → closed` fails with a 400 error. -/
theorem C1_transition_iff_witness :
    (log_activity (mkStore [mkLead 1 "awaiting" (some 1)]) agentA
        { lead_id := some 1, activity_type := some "call", message := "m",
          new_stage := some "lost" }).1
      = ViewResp.jsonOk 200 "Activity logged successfully"
    ∧ ∃ msg, (log_activity (mkStore [mkLead 1 "new" (some 1)]) agentA
        { lead_id := some 1, activity_type := some "call", message := "m",
          new_stage := some "closed" }).1 = ViewResp.jsonErr 400 msg := by
  constructor
  · exact (C1_transition_iff (mkStore [mkLead 1 "awaiting" (some 1)]) agentA
      { lead_id := some 1, activity_type := some "call", message := "m",
        new_stage := some "lost" } 1 "call" "lost" (mkLead 1 "awaiting" (some 1))
      (by decide) rfl rfl (by decide) (by decide) rfl).1.mpr (by decide)
  · exact (C1_transition_iff (mkStore [mkLead 1 "new" (some 1)]) agentA
      { lead_id := some 1, activity_type := some "call", message := "m",
        new_stage := some "closed" } 1 "call" "closed" (mkLead 1 "new" (some 1))
      (by decide) rfl rfl (by decide) (by decide) rfl).2 (by decide)

/-- C2: a successful stage progression through `log_activity` appends
exactly one new `status` activity for the lead besides the caller's
own activity row, and the resulting store holds the new status
together with that ledger entry; likewise a successful
`mark_lead_contacted` appends exactly one `status` activity together
with the status change. -/
theorem C2_transition_logs_status_activity
    (db : Store) (actor : User) (req : LogActivityReq)
    (lid : Nat) (aty ns : String) (lead : Lead)
    (hagent : is_sales_agent actor = true)
    (hlid : truthyNat req.lead_id = some lid)
    (haty : truthyStr req.activity_type = some aty)
    (hvalid : (ACTIVITY_TYPES.contains aty || ["contacted"].contains aty) = true)
    (hlead : get_lead_or_404 db lid actor.id = some lead)
    (hns : truthyStr req.new_stage = some ns)
    (hmem : ns ∈ allowed_transitions_get lead.status) :
    (∃ a1 a2, (log_activity db actor req).2.activities
        = a1 :: a2 :: db.activities
      ∧ a2.activity_type = "status" ∧ a2.lead = lid
      ∧ a1.activity_type = aty ∧ a1.lead = lid
      ∧ (findLead (log_activity db actor req).2 lid).map Lead.status = some ns)
    ∧ ∀ (db' : Store) (actor' : User) (lid' : Nat) (lead' : Lead),
        get_lead_or_404 db' lid' actor'.id = some lead' →
        ∃ a, (mark_lead_contacted db' actor' lid').2.activities
            = a :: db'.activities
          ∧ a.activity_type = "status" ∧ a.lead = lid'
          ∧ (findLead (mark_lead_contacted db' actor' lid').2 lid').map Lead.status
              = some "contacted" := by
  constructor
  · obtain ⟨hmemL, hid, hown⟩ := get_lead_or_404_spec hlead
    subst hid
    have hst : ns ∈ STATUS_CHOICES := mem_allowed_mem_status hmem
    have hrun : (log_activity db actor req).2 =
        (createActivity (createActivity
            (saveLead db { lead with status := ns }) lead.id actor.id "status"
            ("Stage changed from " ++ lead.status ++ " to " ++ ns)).1
          lead.id actor.id aty req.message).1 := by
      simp only [log_activity, hagent, hlid, haty, hvalid, hlead, hns,
        Bool.not_true, not_false_eq_true, if_false, ite_false, ite_true]
      simp [hst, hmem]
    have hfind : findLead (log_activity db actor req).2 lead.id
        = some { lead with status := ns } := by
      rw [hrun]
      show findLead (saveLead db { lead with status := ns })
          ({ lead with status := ns } : Lead).id
        = some { lead with status := ns }
      rw [findLead_saveLead]
      show (findLead db lead.id).map _ = _
      obtain ⟨x, hx⟩ := Option.isSome_iff_exists.mp (findLead_isSome_of_owned hlead)
      rw [hx]
      rfl
    rw [hrun]
    exact ⟨_, _, rfl, rfl, rfl, rfl, rfl, by rw [← hrun, hfind]; rfl⟩
  · intro db' actor' lid' lead' hlead'
    obtain ⟨hmemL', hid', hown'⟩ := get_lead_or_404_spec hlead'
    subst hid'
    have hrun' : (mark_lead_contacted db' actor' lead'.id).2 =
        (createActivity (saveLead db' { lead' with status := "contacted" })
          lead'.id actor'.id "status" "Lead was contacted").1 := by
      simp [mark_lead_contacted, hlead']
    have hfind' : findLead (mark_lead_contacted db' actor' lead'.id).2 lead'.id
        = some { lead' with status := "contacted" } := by
      rw [hrun']
      show findLead (saveLead db' { lead' with status := "contacted" })
          ({ lead' with status := "contacted" } : Lead).id
        = some { lead' with status := "contacted" }
      rw [findLead_saveLead]
      show (findLead db' lead'.id).map _ = _
      obtain ⟨x, hx⟩ := Option.isSome_iff_exists.mp (findLead_isSome_of_owned hlead')
      rw [hx]
      rfl
    rw [hrun']
    exact ⟨_, rfl, rfl, rfl, by rw [← hrun', hfind']; rfl⟩

/-- A store with one `awaiting` lead owned by `agentA`. -/
def db_aw : Store := mkStore [mkLead 1 "awaiting" (some 1)]

/-- A store with one `assigned` lead owned by `agentA`. -/
def db_as : Store := mkStore [mkLead 1 "assigned" (some 1)]

/-- A `log_activity` request advancing to `lost`. -/
def req_lost : LogActivityReq :=
  { lead_id := some 1, activity_type := some "call", message := "m",
    new_stage := some "lost" }

/-- C2 witness: the concrete `awaiting → lost` progression appends the
status row together with the status change, and a concrete
`mark_lead_contacted` appends its status row with the change. -/
theorem C2_transition_logs_status_activity_witness :
    (∃ a1 a2, (log_activity db_aw agentA req_lost).2.activities
        = a1 :: a2 :: db_aw.activities
      ∧ a2.activity_type = "status" ∧ a2.lead = 1
      ∧ a1.activity_type = "call" ∧ a1.lead = 1
      ∧ (findLead (log_activity db_aw agentA req_lost).2 1).map Lead.status
          = some "lost")
    ∧ (∃ a, (mark_lead_contacted db_as agentA 1).2.activities
        = a :: db_as.activities
      ∧ a.activity_type = "status" ∧ a.lead = 1
      ∧ (findLead (mark_lead_contacted db_as agentA 1).2 1).map Lead.status
          = some "contacted") :=
  ⟨(C2_transition_logs_status_activity db_aw agentA req_lost 1 "call" "lost"
      (mkLead 1 "awaiting" (some 1)) (by decide) rfl rfl (by decide) (by decide)
      rfl (by decide)).1,
   (C2_transition_logs_status_activity db_aw agentA req_lost 1 "call" "lost"
      (mkLead 1 "awaiting" (some 1)) (by decide) rfl rfl (by decide) (by decide)
      rfl (by decide)).2 db_as agentA 1 (mkLead 1 "assigned" (some 1)) (by decide)⟩

/-- The lead row as rewritten by a successful `assign_lead` call:
`assigned_to = agent`, `status = "assigned"`, `assigned_at = now`. -/
def assignedLead (lead : Lead) (agentId tnow : Nat) : Lead :=
  { lead with
      assigned_to := some agentId,
      status := "assigned",
      assigned_at := some tnow }

@[simp] theorem assignedLead_id (l : Lead) (a t : Nat) :
    (assignedLead l a t).id = l.id := rfl

@[simp] theorem assignedLead_assigned_to (l : Lead) (a t : Nat) :
    (assignedLead l a t).assigned_to = some a := rfl

/-- Computation of a successful `assign_lead` call. -/
theorem assign_lead_run (db : Store) (actor : User) (aid : Nat)
    (lead : Lead) (agent : User)
    (hadmin : is_admin actor = true)
    (hlid : lead.id ≠ 0) (haid : aid ≠ 0)
    (hlead : findLead db lead.id = some lead)
    (hagent : findUser db aid = some agent) :
    assign_lead db actor (some lead.id) (some aid)
      = (ViewResp.jsonOk 200 ("Lead assigned to " ++ agent.name),
         (createActivity (saveLead db (assignedLead lead agent.id db.now))
            lead.id actor.id "status"
            (match lead.assigned_to with
             | some oldId =>
               "Lead reassigned from " ++ userName db oldId ++ " to " ++ agent.name
             | none => "Lead assigned to " ++ agent.name)).1) := by
  simp only [assign_lead, hadmin, Bool.not_true, not_false_eq_true, if_false,
    ite_false, ite_true, truthyNat, hlid, haid, hlead, hagent, assignedLead]
  simp [hlid, haid]

/-- The lead row resulting from a successful `assign_lead` call. -/
theorem assign_lead_find (db : Store) (actor : User) (aid : Nat)
    (lead : Lead) (agent : User)
    (hadmin : is_admin actor = true)
    (hlid : lead.id ≠ 0) (haid : aid ≠ 0)
    (hlead : findLead db lead.id = some lead)
    (hagent : findUser db aid = some agent) :
    findLead (assign_lead db actor (some lead.id) (some aid)).2 lead.id
      = some (assignedLead lead agent.id db.now) := by
  rw [assign_lead_run db actor aid lead agent hadmin hlid haid hlead hagent]
  show findLead (saveLead db (assignedLead lead agent.id db.now))
      (assignedLead lead agent.id db.now).id
    = some (assignedLead lead agent.id db.now)
  rw [findLead_saveLead]
  show (findLead db lead.id).map _ = _
  rw [hlead]
  rfl

/-- C3: an admin `assign_lead` sets `assigned_to` to the agent, forces
the status to `assigned` regardless of the prior status, sets
`assigned_at`, appends a `status` activity whose message distinguishes
reassignment from first assignment, and a repeated identical call
appends another entry while the final assigned agent stays the agent. -/
theorem C3_assign_forces_assigned
    (db : Store) (actor : User) (lid aid : Nat) (lead : Lead) (agent : User)
    (hadmin : is_admin actor = true)
    (hlid : lid ≠ 0) (haid : aid ≠ 0)
    (hlead : findLead db lid = some lead)
    (hagent : findUser db aid = some agent) :
    (assign_lead db actor (some lid) (some aid)).1
        = ViewResp.jsonOk 200 ("Lead assigned to " ++ agent.name)
    ∧ findLead (assign_lead db actor (some lid) (some aid)).2 lid
        = some (assignedLead lead agent.id db.now)
    ∧ (∃ a, (assign_lead db actor (some lid) (some aid)).2.activities
          = a :: db.activities
        ∧ a.activity_type = "status" ∧ a.lead = lid
        ∧ (lead.assigned_to = none →
            a.message = "Lead assigned to " ++ agent.name)
        ∧ (∀ oldId, lead.assigned_to = some oldId →
            a.message = "Lead reassigned from " ++ userName db oldId
              ++ " to " ++ agent.name))
    ∧ (findLead (assign_lead (assign_lead db actor (some lid) (some aid)).2
          actor (some lid) (some aid)).2 lid).map Lead.assigned_to
        = some (some agent.id)
    ∧ (assign_lead (assign_lead db actor (some lid) (some aid)).2
          actor (some lid) (some aid)).2.activities.length
        = db.activities.length + 2 := by
  have hid : lead.id = lid := by
    have := List.find?_some hlead
    simpa using this
  subst hid
  have hrun := assign_lead_run db actor aid lead agent hadmin hlid haid hlead hagent
  have hfind := assign_lead_find db actor aid lead agent hadmin hlid haid hlead hagent
  have hagent1 : findUser (assign_lead db actor (some lead.id) (some aid)).2 aid
      = some agent := by
    rw [hrun]
    exact hagent
  have hlead1 : findLead (assign_lead db actor (some lead.id) (some aid)).2
      (assignedLead lead agent.id db.now).id
      = some (assignedLead lead agent.id db.now) := hfind
  have hrun2 := assign_lead_run (assign_lead db actor (some lead.id) (some aid)).2
    actor aid (assignedLead lead agent.id db.now) agent hadmin hlid haid hlead1 hagent1
  have hfind2 := assign_lead_find (assign_lead db actor (some lead.id) (some aid)).2
    actor aid (assignedLead lead agent.id db.now) agent hadmin hlid haid hlead1 hagent1
  simp only [assignedLead_id] at hrun2 hfind2
  refine ⟨by rw [hrun], hfind, ?_, ?_, ?_⟩
  · rw [hrun]
    refine ⟨_, rfl, rfl, rfl, ?_, ?_⟩
    · intro h
      rw [h]
    · intro oldId h
      rw [h]
  · rw [hfind2]
    simp
  · rw [hrun2, hrun]
    simp [createActivity, saveLead]

/-- A store with one `closed` lead owned by `agentA`. -/
def db_cl : Store := mkStore [mkLead 1 "closed" (some 1)]

/-- C3 witness: the admin reassigns a `closed` lead to `agentB`; the
call succeeds, the row is forced to `assigned` with the new agent and
timestamp, and a repeated call leaves the agent stable while adding a
second log entry. -/
theorem C3_assign_forces_assigned_witness :
    (assign_lead db_cl adminU (some 1) (some 2)).1
        = ViewResp.jsonOk 200 ("Lead assigned to " ++ agentB.name)
    ∧ findLead (assign_lead db_cl adminU (some 1) (some 2)).2 1
        = some (assignedLead (mkLead 1 "closed" (some 1)) agentB.id db_cl.now)
    ∧ (findLead (assign_lead (assign_lead db_cl adminU (some 1) (some 2)).2
          adminU (some 1) (some 2)).2 1).map Lead.assigned_to
        = some (some agentB.id)
    ∧ (assign_lead (assign_lead db_cl adminU (some 1) (some 2)).2
          adminU (some 1) (some 2)).2.activities.length
        = db_cl.activities.length + 2 :=
  ⟨(C3_assign_forces_assigned db_cl adminU 1 2 (mkLead 1 "closed" (some 1))
      agentB (by decide) (by decide) (by decide) (by decide) (by decide)).1,
   (C3_assign_forces_assigned db_cl adminU 1 2 (mkLead 1 "closed" (some 1))
      agentB (by decide) (by decide) (by decide) (by decide) (by decide)).2.1,
   (C3_assign_forces_assigned db_cl adminU 1 2 (mkLead 1 "closed" (some 1))
      agentB (by decide) (by decide) (by decide) (by decide) (by decide)).2.2.2.1,
   (C3_assign_forces_assigned db_cl adminU 1 2 (mkLead 1 "closed" (some 1))
      agentB (by decide) (by decide) (by decide) (by decide) (by decide)).2.2.2.2⟩

/-- A store with one `new` lead owned by `agentA`. -/
def db_new : Store := mkStore [mkLead 1 "new" (some 1)]

/-- C4 counterexample: `mark_lead_contacted` on an owned lead whose
status is `closed` (not `assigned`) nevertheless succeeds and sets the
status to `contacted` — the view never checks the current status. -/
theorem C4_counterexample :
    (mark_lead_contacted db_cl agentA 1).1 = ViewResp.jsonOk 200 ""
    ∧ (findLead (mark_lead_contacted db_cl agentA 1).2 1).map Lead.status
        = some "contacted" := by
  decide

/-- C4 (amended): `mark_lead_contacted` succeeds for any lead owned by
the actor regardless of its current status, unconditionally setting
the status to `contacted`; only the ownership lookup gates it. -/
theorem C4_mark_contacted_unconditional
    (db : Store) (actor : User) (lid : Nat) (lead : Lead)
    (hlead : get_lead_or_404 db lid actor.id = some lead) :
    (mark_lead_contacted db actor lid).1 = ViewResp.jsonOk 200 ""
    ∧ (findLead (mark_lead_contacted db actor lid).2 lid).map Lead.status
        = some "contacted" := by
  obtain ⟨hm, hid, how⟩ := get_lead_or_404_spec hlead
  subst hid
  have hrun : (mark_lead_contacted db actor lead.id).2 =
      (createActivity (saveLead db { lead with status := "contacted" })
        lead.id actor.id "status" "Lead was contacted").1 := by
    simp [mark_lead_contacted, hlead]
  refine ⟨by simp [mark_lead_contacted, hlead], ?_⟩
  rw [hrun]
  show (findLead (saveLead db { lead with status := "contacted" })
      ({ lead with status := "contacted" } : Lead).id).map Lead.status
    = some "contacted"
  rw [findLead_saveLead]
  obtain ⟨x, hx⟩ := Option.isSome_iff_exists.mp (findLead_isSome_of_owned hlead)
  show ((findLead db lead.id).map _).map _ = _
  rw [hx]
  rfl

/-- C4 witness: a concrete owned lead with status `new` (also not
`assigned`) is likewise marked `contacted` successfully. -/
theorem C4_mark_contacted_unconditional_witness :
    (mark_lead_contacted db_new agentA 1).1 = ViewResp.jsonOk 200 ""
    ∧ (findLead (mark_lead_contacted db_new agentA 1).2 1).map Lead.status
        = some "contacted" :=
  C4_mark_contacted_unconditional db_new agentA 1 (mkLead 1 "new" (some 1))
    (by decide)

/-- A lead written back by `saveLead` is either the replacement row or
an untouched row of the original store. -/
theorem mem_saveLead {db : Store} {X l : Lead}
    (h : l ∈ (saveLead db X).leads) : l = X ∨ l ∈ db.leads := by
  simp only [saveLead, List.mem_map] at h
  obtain ⟨x, hx, hxl⟩ := h
  split at hxl
  · exact Or.inl hxl.symm
  · exact Or.inr (hxl ▸ hx)

/-- Every lead of `db'` keeps the contacted/awaiting/closed/assigned
timestamps of a same-id row of `db`. -/
def sameMilestones (db db' : Store) : Prop :=
  ∀ l ∈ db'.leads, ∃ l0, l0 ∈ db.leads ∧ l0.id = l.id
    ∧ l.contacted_at = l0.contacted_at ∧ l.awaiting_at = l0.awaiting_at
    ∧ l.closed_at = l0.closed_at ∧ l.assigned_at = l0.assigned_at

/-- As `sameMilestones`, except `assigned_at` may also have been
(re)written to the current time of `db`. -/
def sameMilestonesAssign (db db' : Store) : Prop :=
  ∀ l ∈ db'.leads, ∃ l0, l0 ∈ db.leads ∧ l0.id = l.id
    ∧ l.contacted_at = l0.contacted_at ∧ l.awaiting_at = l0.awaiting_at
    ∧ l.closed_at = l0.closed_at
    ∧ (l.assigned_at = l0.assigned_at ∨ l.assigned_at = some db.now)

theorem sameMilestones_of_leads_eq {db db' : Store}
    (h : db'.leads = db.leads) : sameMilestones db db' :=
  fun l hl => ⟨l, by rw [← h]; exact hl, rfl, rfl, rfl, rfl, rfl⟩

/-- The lead table after `log_activity` is unchanged, or one owned
lead had (only) its status rewritten. -/
theorem log_activity_leads_cases (db : Store) (actor : User)
    (req : LogActivityReq) :
    (log_activity db actor req).2.leads = db.leads
    ∨ ∃ lead ns, lead ∈ db.leads
        ∧ (log_activity db actor req).2.leads
            = (saveLead db { lead with status := ns }).leads := by
  unfold log_activity
  split
  · exact Or.inl rfl
  · split
    · split
      · exact Or.inl rfl
      · split
        · exact Or.inl rfl
        · rename_i lead heq
          split
          · split
            · exact Or.inl rfl
            · split
              · exact Or.inl rfl
              · exact Or.inr ⟨lead, _, (get_lead_or_404_spec heq).1, rfl⟩
          · exact Or.inl rfl
    · exact Or.inl rfl

/-- The lead table after `assign_lead` is unchanged, or one lead was
rewritten to its `assignedLead` form. -/
theorem assign_lead_leads_cases (db : Store) (actor : User)
    (la aa : Option Nat) :
    (assign_lead db actor la aa).2.leads = db.leads
    ∨ ∃ lead agentId, lead ∈ db.leads
        ∧ (assign_lead db actor la aa).2.leads
            = (saveLead db (assignedLead lead agentId db.now)).leads := by
  unfold assign_lead
  split
  · exact Or.inl rfl
  · split
    · split
      · exact Or.inl rfl
      · rename_i lead heq
        split
        · exact Or.inl rfl
        · exact Or.inr ⟨lead, _, List.mem_of_find?_eq_some heq, rfl⟩
    · exact Or.inl rfl

/-- C5 counterexample: starting from an unassigned `new` lead,
(1) `assign_lead` sets `assigned_at` to time 10, (2) a second
identical `assign_lead` overwrites it to time 11 (so the timestamp is
not preserved once set), and (3) the `assigned → contacted` transition
via `log_activity` leaves `contacted_at` null even though the status
becomes `contacted` (the matching milestone timestamp is never set). -/
theorem C5_counterexample :
    (findLead (assign_lead (mkStore [mkLead 1 "new" none]) adminU
        (some 1) (some 1)).2 1).map Lead.assigned_at = some (some 10)
    ∧ (findLead (assign_lead (assign_lead (mkStore [mkLead 1 "new" none]) adminU
        (some 1) (some 1)).2 adminU (some 1) (some 1)).2 1).map Lead.assigned_at
        = some (some 11)
    ∧ (findLead (log_activity (assign_lead (mkStore [mkLead 1 "new" none]) adminU
        (some 1) (some 1)).2 agentA
        { lead_id := some 1, activity_type := some "call", message := "",
          new_stage := some "contacted" }).2 1).map Lead.status
        = some "contacted"
    ∧ (findLead (log_activity (assign_lead (mkStore [mkLead 1 "new" none]) adminU
        (some 1) (some 1)).2 agentA
        { lead_id := some 1, activity_type := some "call", message := "",
          new_stage := some "contacted" }).2 1).map Lead.contacted_at
        = some none := by
  decide

/-- C5 (amended): `contacted_at`, `awaiting_at` and `closed_at` are
never written by any operation — every resulting lead keeps the values
of a same-id row of the prior store — and `assigned_at` is written
only by `assign_lead`, which sets it to the current time (overwriting
any previous value); a successful `assign_lead` indeed leaves
`assigned_at = now` on the target lead. -/
theorem C5_milestone_timestamps
    (db : Store) (actor : User) (req : LogActivityReq) (lid : Nat)
    (nt : Option String) (la aa : Option Nat) :
    sameMilestones db (log_activity db actor req).2
    ∧ sameMilestones db (mark_lead_contacted db actor lid).2
    ∧ sameMilestones db (add_lead_note db actor lid nt).2
    ∧ sameMilestonesAssign db (assign_lead db actor la aa).2
    ∧ (∀ (lead : Lead) (agent : User) (aid : Nat), is_admin actor = true →
        lead.id ≠ 0 → aid ≠ 0 → findLead db lead.id = some lead →
        findUser db aid = some agent →
        (findLead (assign_lead db actor (some lead.id) (some aid)).2
            lead.id).map Lead.assigned_at = some (some db.now)) := by
  refine ⟨?_, ?_, ?_, ?_, ?_⟩
  · rcases log_activity_leads_cases db actor req with h | ⟨lead, ns, hmem, h⟩
    · exact sameMilestones_of_leads_eq h
    · intro l hl
      rw [h] at hl
      rcases mem_saveLead hl with rfl | hmem'
      · exact ⟨lead, hmem, rfl, rfl, rfl, rfl, rfl⟩
      · exact ⟨l, hmem', rfl, rfl, rfl, rfl, rfl⟩
  · unfold mark_lead_contacted
    rcases h : get_lead_or_404 db lid actor.id with _ | lead
    · exact sameMilestones_of_leads_eq rfl
    · intro l hl
      rcases mem_saveLead hl with rfl | hmem'
      · exact ⟨lead, (get_lead_or_404_spec h).1, rfl, rfl, rfl, rfl, rfl⟩
      · exact ⟨l, hmem', rfl, rfl, rfl, rfl, rfl⟩
  · unfold add_lead_note
    rcases h : get_lead_or_404 db lid actor.id with _ | lead
    · exact sameMilestones_of_leads_eq rfl
    · rcases h2 : truthyStr nt with _ | t
      · exact sameMilestones_of_leads_eq rfl
      · exact sameMilestones_of_leads_eq rfl
  · rcases assign_lead_leads_cases db actor la aa with h | ⟨lead, agentId, hmem, h⟩
    · intro l hl
      rw [h] at hl
      exact ⟨l, hl, rfl, rfl, rfl, rfl, Or.inl rfl⟩
    · intro l hl
      rw [h] at hl
      rcases mem_saveLead hl with rfl | hmem'
      · exact ⟨lead, hmem, rfl, rfl, rfl, rfl, Or.inr rfl⟩
      · exact ⟨l, hmem', rfl, rfl, rfl, rfl, Or.inl rfl⟩
  · intro lead agent aid hadmin hlid haid hlead hagent
    rw [assign_lead_find db actor aid lead agent hadmin hlid haid hlead hagent]
    rfl

/-- C5 witness: the preservation statements applied at a concrete
store and requests: the lead resulting from the concrete
`awaiting → lost` progression keeps the (null) milestone timestamps of
the original row. -/
theorem C5_milestone_timestamps_witness :
    ∃ l0, l0 ∈ db_aw.leads ∧ l0.id = (mkLead 1 "lost" (some 1)).id
      ∧ (mkLead 1 "lost" (some 1)).contacted_at = l0.contacted_at
      ∧ (mkLead 1 "lost" (some 1)).awaiting_at = l0.awaiting_at
      ∧ (mkLead 1 "lost" (some 1)).closed_at = l0.closed_at
      ∧ (mkLead 1 "lost" (some 1)).assigned_at = l0.assigned_at :=
  (C5_milestone_timestamps db_aw agentA req_lost 1 none none none).1
    (mkLead 1 "lost" (some 1)) (by decide)

/-- C6 counterexample: when non-owner `agentB` sends an otherwise
valid `log_activity` request for `agentA`'s lead, the view returns a
500 "Server error" JSON response (the `Http404` raised by
`get_object_or_404` is swallowed by the view's `except Exception`),
not a 404-equivalent; the store is unchanged. -/
theorem C6_counterexample :
    log_activity db_as agentB
        { lead_id := some 1, activity_type := some "call", message := "m",
          new_stage := none }
      = (ViewResp.jsonErr 500 "Server error: No Lead matches the given query.",
         db_as) := by
  decide

/-- C6 (amended): for a non-owner actor, `mark_lead_contacted` and
`add_lead_note` fail with an `Http404` page, and `log_activity` (on an
otherwise valid request) fails with a 500 response carrying the
not-found message — all three hide the lead's existence and leave the
store unchanged: no status change and no activity row. -/
theorem C6_non_owner_rejected
    (db : Store) (actor : User) (lid : Nat) (nt : Option String)
    (req : LogActivityReq) (aty : String)
    (hnotowner : get_lead_or_404 db lid actor.id = none)
    (hagent : is_sales_agent actor = true)
    (hlid : truthyNat req.lead_id = some lid)
    (haty : truthyStr req.activity_type = some aty)
    (hvalid : (ACTIVITY_TYPES.contains aty || ["contacted"].contains aty) = true) :
    mark_lead_contacted db actor lid = (ViewResp.notFoundPage, db)
    ∧ add_lead_note db actor lid nt = (ViewResp.notFoundPage, db)
    ∧ log_activity db actor req
        = (ViewResp.jsonErr 500 "Server error: No Lead matches the given query.",
           db) := by
  refine ⟨?_, ?_, ?_⟩
  · simp [mark_lead_contacted, hnotowner]
  · simp [add_lead_note, hnotowner]
  · simp only [log_activity, hagent, hlid, haty, hvalid, hnotowner,
      Bool.not_true, not_false_eq_true, if_false, ite_false, ite_true]
    simp

/-- C6 witness: the amended statement at a concrete non-owner input. -/
theorem C6_non_owner_rejected_witness :
    mark_lead_contacted db_as agentB 1 = (ViewResp.notFoundPage, db_as)
    ∧ add_lead_note db_as agentB 1 (some "hello") = (ViewResp.notFoundPage, db_as)
    ∧ log_activity db_as agentB
        { lead_id := some 1, activity_type := some "note", message := "m",
          new_stage := none }
        = (ViewResp.jsonErr 500 "Server error: No Lead matches the given query.",
           db_as) :=
  C6_non_owner_rejected db_as agentB 1 (some "hello")
    { lead_id := some 1, activity_type := some "note", message := "m",
      new_stage := none } "note" (by decide) (by decide) rfl rfl (by decide)

/-- A `log_activity` request whose activity type is the stray literal
`"contacted"`. -/
def req_ctype : LogActivityReq :=
  { lead_id := some 1, activity_type := some "contacted", message := "m",
    new_stage := none }

/-- C7 counterexample: `activity_type = "contacted"` is outside the
enumerated set {call, whatsapp, email, note, status}, yet
`log_activity` accepts it (the validation reads
`not in valid_types and not in ["contacted"]`) and appends an activity
row of that stray type. -/
theorem C7_counterexample :
    (log_activity db_as agentA req_ctype).1
        = ViewResp.jsonOk 200 "Activity logged successfully"
    ∧ (log_activity db_as agentA req_ctype).2.activities
        = [{ id := 1, lead := 1, user := some 1, activity_type := "contacted",
             message := "m", created_at := 10 }] := by
  decide

/-- C7 (amended): `log_activity` accepts `activity_type` iff it lies
in the enumerated set {call, whatsapp, email, note, status} or is the
extra literal `"contacted"`; outside that the request is rejected with
400 and the store untouched; and every successful call appends exactly
one action row of the given type, ahead of at most one status-change
row. -/
theorem C7_activity_type_validation
    (db : Store) (actor : User) (req : LogActivityReq) (lid : Nat) (aty : String)
    (hagent : is_sales_agent actor = true)
    (hlid : truthyNat req.lead_id = some lid)
    (haty : truthyStr req.activity_type = some aty) :
    (aty ∉ ACTIVITY_TYPES ∧ aty ≠ "contacted" →
      log_activity db actor req
        = (ViewResp.jsonErr 400
            "Invalid activity type. Must be one of: call, whatsapp, email, note, status",
           db))
    ∧ ((log_activity db actor req).1
          = ViewResp.jsonOk 200 "Activity logged successfully" →
      ∃ a rest, (log_activity db actor req).2.activities = a :: rest
        ∧ a.activity_type = aty ∧ a.lead = lid
        ∧ (rest = db.activities
           ∨ ∃ s, rest = s :: db.activities ∧ s.activity_type = "status")) := by
  constructor
  · rintro ⟨h1, h2⟩
    have hv1 : ACTIVITY_TYPES.contains aty = false := by
      rcases Bool.eq_false_or_eq_true (ACTIVITY_TYPES.contains aty) with h | h
      · exact absurd ((contains_iff_mem_str _ _).mp h) h1
      · exact h
    have hv2 : (["contacted"] : List String).contains aty = false := by
      rcases Bool.eq_false_or_eq_true ((["contacted"] : List String).contains aty)
          with h | h
      · have := (contains_iff_mem_str _ _).mp h
        simp at this
        exact absurd this h2
      · exact h
    simp only [log_activity, hagent, hlid, haty, hv1, hv2,
      Bool.not_true, not_false_eq_true, if_false, ite_false, ite_true]
    simp
  · intro hok
    by_cases hvalid : (ACTIVITY_TYPES.contains aty
        || (["contacted"] : List String).contains aty) = true
    · rcases hlead : get_lead_or_404 db lid actor.id with _ | lead
      · exfalso
        simp only [log_activity, hagent, hlid, haty, hvalid, hlead] at hok
        simp at hok
      · obtain ⟨hm, hid, how⟩ := get_lead_or_404_spec hlead
        subst hid
        rcases hns : truthyStr req.new_stage with _ | ns
        · refine ⟨{ id := db.next_activity_id,
                    lead := lead.id,
                    user := some actor.id,
                    activity_type := aty,
                    message := req.message,
                    created_at := db.now },
            db.activities, ?_, rfl, rfl, Or.inl rfl⟩
          simp only [log_activity, hagent, hlid, haty, hvalid, hlead, hns,
            Bool.not_true, not_false_eq_true, if_false, ite_false, ite_true]
          simp [createActivity]
        · by_cases hst : ns ∈ STATUS_CHOICES
          · by_cases hmem : ns ∈ allowed_transitions_get lead.status
            · refine ⟨{ id := db.next_activity_id + 1,
                        lead := lead.id,
                        user := some actor.id,
                        activity_type := aty,
                        message := req.message,
                        created_at := db.now + 1 },
                { id := db.next_activity_id,
                  lead := lead.id,
                  user := some actor.id,
                  activity_type := "status",
                  message := "Stage changed from " ++ lead.status ++ " to " ++ ns,
                  created_at := db.now } :: db.activities, ?_, rfl, rfl,
                Or.inr ⟨_, rfl, rfl⟩⟩
              simp only [log_activity, hagent, hlid, haty, hvalid, hlead, hns,
                Bool.not_true, not_false_eq_true, if_false, ite_false, ite_true]
              simp [hst, hmem, createActivity, saveLead]
            · exfalso
              simp only [log_activity, hagent, hlid, haty, hvalid, hlead,
                hns] at hok
              simp [hst, hmem] at hok
          · exfalso
            simp only [log_activity, hagent, hlid, haty, hvalid, hlead,
              hns] at hok
            simp [hst] at hok
    · exfalso
      have hv : (ACTIVITY_TYPES.contains aty
          || (["contacted"] : List String).contains aty) = false := by
        rcases Bool.eq_false_or_eq_true (ACTIVITY_TYPES.contains aty
            || (["contacted"] : List String).contains aty) with h | h
        · exact absurd h hvalid
        · exact h
      simp only [log_activity, hagent, hlid, haty, hv] at hok
      simp at hok

/-- C7 witness: the stray type `"bogus"` is rejected with 400 leaving
the store unchanged, while the accepted `"note"` request appends
exactly one `note` row. -/
theorem C7_activity_type_validation_witness :
    log_activity db_as agentA
        { lead_id := some 1, activity_type := some "bogus", message := "m",
          new_stage := none }
      = (ViewResp.jsonErr 400
          "Invalid activity type. Must be one of: call, whatsapp, email, note, status",
         db_as)
    ∧ ∃ a rest, (log_activity db_as agentA
        { lead_id := some 1, activity_type := some "note", message := "m",
          new_stage := none }).2.activities = a :: rest
      ∧ a.activity_type = "note" ∧ a.lead = 1
      ∧ (rest = db_as.activities
         ∨ ∃ s, rest = s :: db_as.activities ∧ s.activity_type = "status") :=
  ⟨(C7_activity_type_validation db_as agentA
      { lead_id := some 1, activity_type := some "bogus", message := "m",
        new_stage := none } 1 "bogus" (by decide) rfl rfl).1 (by decide),
   (C7_activity_type_validation db_as agentA
      { lead_id := some 1, activity_type := some "note", message := "m",
        new_stage := none } 1 "note" (by decide) rfl rfl).2 (by decide)⟩

/-- A store holding one unassigned lead whose phone is `"7"`, the
pre-existing row for the import scenario. -/
def db_imp : Store := mkStore [mkLead 7 "new" none]

/-- C8: the bulk import truncates its error list to at most 10
messages on every input, and on the 5-row scenario — one row with an
all-whitespace phone, one duplicating the phone of an existing lead,
three valid — it reports created=3, errorCount=2 with the two error
messages, the bad rows not aborting the later valid ones. -/
theorem C8_import_isolated_counts :
    (∀ (db : Store) (actor : User) (rows : List CsvRow),
      ((csv_import db actor rows).1.elim [] CsvResult.errors).length ≤ 10)
    ∧ (csv_import db_imp adminU
        [{ full_name := "A", email := "", phone := "201", source := none },
         { full_name := "B", email := "", phone := "   ", source := none },
         { full_name := "C", email := "c@x.y", phone := "202",
           source := some "Website" },
         { full_name := "D", email := "", phone := "7", source := none },
         { full_name := "E", email := "", phone := "203",
           source := some "bogus" }]).1
      = some { created_count := 3, error_count := 2,
               errors := ["Row skipped: missing name or phone",
                          "Lead with phone 7 already exists"] } := by
  constructor
  · intro db actor rows
    unfold csv_import
    split
    · simp
    · split
      simp only [Option.elim]
      simp [List.length_take]
  · decide

/-- C9 counterexample: the admin, who is not the lead's assigned
agent, is denied by `get_lead_activities` (the ownership-scoped lookup
admits only `assigned_to = actor`), contradicting "succeeds … for any
admin actor". -/
theorem C9_counterexample :
    get_lead_activities db_as adminU 1 none
      = Except.error
          (500, "Failed to load activities: No Lead matches the given query.") := by
  rfl

/-- C9 (amended): `get_lead_activities` succeeds only for the lead's
owning agent — an admin who is not the assigned agent is denied like
any other non-owner — returning exactly the lead's activities ordered
newest-first (descending `created_at`); every other actor receives the
500 response carrying the not-found message. -/
theorem C9_owner_only_newest_first
    (db : Store) (actor : User) (lid : Nat) :
    (∀ lead, get_lead_or_404 db lid actor.id = some lead →
      ∃ acts, get_lead_activities db actor lid none = Except.ok acts
        ∧ acts.Pairwise (fun a b => b.created_at ≤ a.created_at)
        ∧ ∀ a, a ∈ acts ↔ a ∈ db.activities ∧ a.lead = lead.id)
    ∧ (get_lead_or_404 db lid actor.id = none →
      get_lead_activities db actor lid none
        = Except.error
            (500, "Failed to load activities: No Lead matches the given query.")) := by
  constructor
  · intro lead hlead
    refine ⟨(db.activities.filter (fun a => a.lead == lead.id)).mergeSort
        (fun a b => decide (b.created_at ≤ a.created_at)), ?_, ?_, ?_⟩
    · simp [get_lead_activities, hlead, truthyStr]
    · have hs := @List.sorted_mergeSort LeadActivity
        (fun a b : LeadActivity => decide (b.created_at ≤ a.created_at))
        (fun a b c hab hbc => by
          simp only [decide_eq_true_eq] at hab hbc ⊢
          omega)
        (fun a b => by
          simp only [Bool.or_eq_true, decide_eq_true_eq]
          omega)
        (db.activities.filter (fun a => a.lead == lead.id))
      exact hs.imp (fun h => of_decide_eq_true h)
    · intro a
      rw [List.mem_mergeSort, List.mem_filter]
      simp
  · intro hnone
    simp [get_lead_activities, hnone]

/-- A store whose owned lead has two activities logged out of
timestamp order. -/
def db_acts : Store :=
  { mkStore [mkLead 1 "assigned" (some 1)] with
      activities :=
        [{ id := 1, lead := 1, user := some 1, activity_type := "call",
           message := "", created_at := 3 },
         { id := 2, lead := 1, user := some 1, activity_type := "note",
           message := "", created_at := 7 }] }

/-- C9 witness: the owning agent gets the concrete lead's activities
back sorted newest-first. -/
theorem C9_owner_only_newest_first_witness :
    ∃ acts, get_lead_activities db_acts agentA 1 none = Except.ok acts
      ∧ acts.Pairwise (fun a b => b.created_at ≤ a.created_at)
      ∧ ∀ a, a ∈ acts ↔ a ∈ db_acts.activities ∧ a.lead = 1 :=
  (C9_owner_only_newest_first db_acts agentA 1).1
    (mkLead 1 "assigned" (some 1)) (by decide)

/-- C10: `add_lead_note` by the owning agent with a missing or empty
note text completes as a success (redirect to the sales dashboard)
while leaving the store — notes and activities included — untouched:
empty input is silently dropped, not rejected. -/
theorem C10_empty_note_dropped
    (db : Store) (actor : User) (lid : Nat) (lead : Lead) (nt : Option String)
    (hlead : get_lead_or_404 db lid actor.id = some lead)
    (hempty : nt = none ∨ nt = some "") :
    add_lead_note db actor lid nt
      = (ViewResp.redirect "dashboards:sales_dashboard", db) := by
  have ht : truthyStr nt = none := by
    rcases hempty with rfl | rfl <;> rfl
  simp [add_lead_note, hlead, ht]

/-- C10 witness: both the empty-string and the absent note text at a
concrete owned lead redirect with the store unchanged. -/
theorem C10_empty_note_dropped_witness :
    add_lead_note db_as agentA 1 (some "")
      = (ViewResp.redirect "dashboards:sales_dashboard", db_as)
    ∧ add_lead_note db_as agentA 1 none
      = (ViewResp.redirect "dashboards:sales_dashboard", db_as) :=
  ⟨C10_empty_note_dropped db_as agentA 1 (mkLead 1 "assigned" (some 1))
      (some "") (by decide) (Or.inr rfl),
   C10_empty_note_dropped db_as agentA 1 (mkLead 1 "assigned" (some 1))
      none (by decide) (Or.inl rfl)⟩

end CRM
